import Mathlib

/-
A shallow embedding of the vut-imp-meteostation firmware (src/main.c, src/main.h):
an ESP32 weather station that shows MQTT-delivered telemetry on an OLED display
and is driven by APDS9960 swipe gestures.  The embedding covers the shared
telemetry globals, the MQTT message parsing (mqtt_parse_data / the
MQTT_EVENT_DATA branch of mqtt_event_handler), the periodic publisher
(mqtt_task), the gesture wait / fatal-error path (wait_for_gesture,
exit_error, cleanup) and the nested view loops (view_welcome, view_menu,
view_temperature/humidity/visibility, view_cities, view_confirm) flattened
into a single step function on an explicit view-state type.
-/

set_option autoImplicit false

namespace Meteostation

/-- `#define MAX_BUFF 256` — capacity of every character buffer in main.c. -/
def MAX_BUFF : Nat := 256

/-- `#define PREFIX_DATA "[DATA]"` — inbound data message tag. -/
def PREFIX_DATA : String := "[DATA]"

/-- `#define PREFIX_CITY "[CITY]"` — outbound status message tag. -/
def PREFIX_CITY : String := "[CITY]"

/-- `CITY_CONFIG` from main.h: the fixed city catalog. -/
def CITY_CONFIG : List String := ["Brno", "London", "Paris"]

/-- `sizeof(CITY_CONFIG)/sizeof(CITY_CONFIG[0])`, the local `SIZE` of view_cities. -/
def CITY_SIZE : Nat := CITY_CONFIG.length

/-- `MENU_CONFIG` from main.h: the fixed menu labels. -/
def MENU_CONFIG : List String := ["Temperature", "Humidity", "Visibility", "Select area"]

/-- `const unsigned int MENU_SIZE = 4` from main.h. -/
def MENU_SIZE : Nat := 4

/-- `MENU_SELECT_AREA` of the `view_menu_t` enum in main.h. -/
def MENU_SELECT_AREA : Nat := 3

/-- The process-wide mutable globals of main.c:
`char TEMPERATURE[MAX_BUFF]`, `char HUMIDITY[MAX_BUFF]`,
`char VISIBILITY[MAX_BUFF]`, `int CITY`. -/
structure Store where
  TEMPERATURE : String
  HUMIDITY : String
  VISIBILITY : String
  CITY : Nat
deriving Repr, DecidableEq

/-- The globals at program start: the char arrays are zero-initialised (empty
strings) and `int CITY = 0`. -/
def initialStore : Store := ⟨"", "", "", 0⟩

/-- One call to C `strtok` with delimiter set `delims`, acting on the remaining
input `s`: leading delimiter characters are skipped; if nothing is left the
call returns NULL (`none`); otherwise it returns the maximal delimiter-free
token together with the rest of the input after the single delimiter character
that terminated the token (strtok writes a NUL over exactly that one
character and leaves everything after it in place). -/
def strtokStep (delims : List Char) (s : List Char) : Option (List Char × List Char) :=
  let s1 := s.dropWhile (fun c => delims.contains c)
  match s1 with
  | [] => none
  | _ :: _ =>
    let tok := s1.takeWhile (fun c => ¬ delims.contains c)
    match s1.drop tok.length with
    | [] => some (tok, [])
    | _ :: r => some (tok, r)

/-- The sequence of tokens produced by repeated `strtok(NULL, delims)` calls on
remaining input `s`.  `fuel` only bounds recursion depth; every caller supplies
`s.length + 1`, which is always sufficient because each produced token consumes
at least one character. -/
def strtokRest (delims : List Char) : Nat → List Char → List (List Char)
  | 0, _ => []
  | fuel + 1, s =>
    match strtokStep delims s with
    | none => []
    | some (tok, r) => tok :: strtokRest delims fuel r

/-- C `strstr(hay, needle) != NULL`: the needle occurs as a contiguous
substring of the haystack (at any offset, not only at the start). -/
def strstrFound (hay needle : List Char) : Bool :=
  (List.range (hay.length + 1)).any (fun k => needle.isPrefixOf (hay.drop k))

/-- The loop body of `mqtt_parse_data`: the `for` loop walks the token list
with counter `i` (the first token passed in — the message tag — has `i = 0`)
and the `switch` stores token 1 into TEMPERATURE, token 2 into HUMIDITY and
token 3 into VISIBILITY, each via `strcpy`; all other tokens are ignored. -/
def parseFields : Nat → List String → Store → Store
  | _, [], st => st
  | i, t :: ts, st =>
    let st' :=
      if i = 1 then { st with TEMPERATURE := t }
      else if i = 2 then { st with HUMIDITY := t }
      else if i = 3 then { st with VISIBILITY := t }
      else st
    parseFields (i + 1) ts st'

/-- `mqtt_parse_data(token)` from main.c, applied to the full token sequence
(the tag token it is called with, followed by the comma-separated tokens that
the subsequent `strtok(NULL, ",")` calls yield). -/
def mqtt_parse_data (tokens : List String) (st : Store) : Store :=
  parseFields 0 tokens st

/-- The token list that `mqtt_parse_data` traverses for a message whose first
space-delimited token is `pre` and whose remaining characters are `rest`. -/
def dataTokens (pre rest : List Char) : List String :=
  (pre :: strtokRest [','] (rest.length + 1) rest).map (fun l => String.mk l)

/-- The `MQTT_EVENT_DATA` branch of `mqtt_event_handler` from main.c: the
payload is copied into a local buffer, `strtok(buff, " ")` extracts the first
space-delimited token, and iff `strstr(prefix, PREFIX_DATA)` finds the data tag
anywhere inside that token, `mqtt_parse_data` consumes the token sequence;
otherwise the message is ignored.  (When the payload consists only of spaces
`strtok` returns NULL; the model leaves the store unchanged there.) -/
def mqtt_event_data (data : List Char) (st : Store) : Store :=
  match strtokStep [' '] data with
  | none => st
  | some (pre, rest) =>
    if strstrFound pre PREFIX_DATA.data then
      mqtt_parse_data (dataTokens pre rest) st
    else st

/-- The first space-delimited token of a payload (`strtok(buff, " ")`),
or `[]` when strtok returns NULL. -/
def firstToken (data : List Char) : List Char :=
  match strtokStep [' '] data with
  | none => []
  | some (pre, _) => pre

/-- The dynamic text that `view_temperature` draws on row 4:
`ssd1306_display_text(&dev, 4, TEMPERATURE, strlen(TEMPERATURE), false)`. -/
def view_temperature_text (st : Store) : String :=
  st.TEMPERATURE

/-- The raw byte-writes into fixed-capacity buffers that processing one
inbound payload performs, as `(capacity, bytesWritten)` pairs:
`strncpy(buff, event->data, event->data_len)` writes `data_len` bytes into the
256-byte local `buff`, and each `strcpy(FIELD, token)` inside
`mqtt_parse_data` writes `strlen(token) + 1` bytes (including the NUL
terminator) into the 256-byte global field. -/
def storedWrites : Nat → List (List Char) → List (Nat × Nat)
  | _, [] => []
  | i, t :: ts =>
    (if i = 1 ∨ i = 2 ∨ i = 3 then [(MAX_BUFF, t.length + 1)] else [])
      ++ storedWrites (i + 1) ts

/-- All buffer writes performed while handling one `MQTT_EVENT_DATA` payload
(see `storedWrites`). -/
def eventWriteSizes (data : List Char) : List (Nat × Nat) :=
  (MAX_BUFF, data.length) ::
    (match strtokStep [' '] data with
     | none => []
     | some (pre, rest) =>
       if strstrFound pre PREFIX_DATA.data then
         storedWrites 0 (pre :: strtokRest [','] (rest.length + 1) rest)
       else [])

/-- Every write stays within the capacity of its destination buffer. -/
def writesSafe (ws : List (Nat × Nat)) : Bool :=
  ws.all (fun p => p.2 ≤ p.1)

/-- `sprintf(buff, "%s %s", PREFIX_CITY, CITY_CONFIG[CITY])` — the payload
published by each iteration of the `while (1)` loop in `mqtt_task`. -/
def mqtt_task_message (city : Nat) : String :=
  PREFIX_CITY ++ " " ++ CITY_CONFIG.getD city ""

/-- The result of `cleanup()` in main.c: `apds9960_delete(&apds9960)` then
`i2c_bus_delete(&i2c_bus)`. -/
structure CleanupRecord where
  apds9960_deleted : Bool
  i2c_bus_deleted : Bool
deriving Repr, DecidableEq

/-- `cleanup()` releases both handles. -/
def cleanup : CleanupRecord := ⟨true, true⟩

/-- How one call to `wait_for_gesture` ends. -/
inductive GestureOutcome where
  /-- the gesture value is returned to the calling view -/
  | gesture (g : Int)
  /-- `exit_error` ran: `cleanup()` then `exit(1)` -/
  | fatal (c : CleanupRecord) (exitCode : Nat)
  /-- the sensor never produced a nonzero reading (the `while` loop spins) -/
  | blocked
deriving Repr, DecidableEq

/-- `exit_error(message)` from main.c: print, `cleanup()`, `exit(1)`. -/
def exit_error : GestureOutcome :=
  .fatal cleanup 1

/-- `wait_for_gesture()` from main.c, over the stream of values that
successive `apds9960_read_gesture` calls return: the `while` loop discards
zero readings; the first nonzero reading is checked against `-1`
(`exit_error` on fault) and returned otherwise. -/
def wait_for_gesture (readings : List Int) : GestureOutcome :=
  match readings.dropWhile (fun g => g == 0) with
  | [] => .blocked
  | g :: _ => if g = -1 then exit_error else .gesture g

/-- The four valid gestures, named after the `APDS9960_*` codes that the
`switch` statements in the view functions match on (the log messages in the
source print the opposite label; behaviour follows the case, not the log). -/
inductive Gesture where
  | up
  | down
  | left
  | right
deriving Repr, DecidableEq

/-- The control state of the nested view loops in main.c, flattened:
`welcome` is `view_welcome` waiting for its gesture; `menu i` is the
`view_menu` loop with local `view_idx = i`; `detail i` is one of
`view_temperature`/`view_humidity`/`view_visibility` entered from menu row
`i`; `cities c i` is the `view_cities` loop with local `city_idx = c` called
from menu row `i`; `confirm o c i` is the `view_confirm` loop with local
`opt_idx = o` called from `view_cities` with `city_idx = c`. -/
inductive View where
  | welcome
  | menu (viewIdx : Nat)
  | detail (menuIdx : Nat)
  | cities (cityIdx : Nat) (menuIdx : Nat)
  | confirm (optIdx : Nat) (cityIdx : Nat) (menuIdx : Nat)
deriving Repr, DecidableEq

/-- Whether a view state is a `view_menu` loop state. -/
def View.isMenu : View → Bool
  | .menu _ => true
  | _ => false

/-- The whole program state seen by the UI task: the shared globals plus the
flattened view control state. -/
structure SysState where
  store : Store
  view : View
deriving Repr, DecidableEq

/-- Program state right after startup: zeroed globals, `view_welcome`. -/
def initialState : SysState := ⟨initialStore, .welcome⟩

/-- One gesture processed by whichever view loop is active, translated from
the `switch (wait_for_gesture())` statements of main.c:
* `view_welcome` discards the gesture and calls `view_menu` (local
  `view_idx = 0`);
* `view_menu`: UP `view_idx = (view_idx + 1) % MENU_SIZE`; DOWN
  `view_idx = (view_idx - 1 + MENU_SIZE) % MENU_SIZE`; LEFT calls
  `MENU_VIEWS[view_idx]()` (`view_cities` starts with `city_idx = 0`);
  RIGHT does nothing;
* the three detail views ignore UP/DOWN/LEFT and `return` on RIGHT;
* `view_cities`: UP/DOWN cycle `city_idx` mod `SIZE`; LEFT calls
  `view_confirm` (local `opt_idx = 0`); RIGHT `return`s to the menu;
* `view_confirm`: UP/DOWN cycle `opt_idx` mod 2; LEFT returns
  `opt_idx == 0` — on `true` `view_cities` runs `CITY = city_idx; return;`
  (back to the menu), on `false` it `break`s back into its own loop;
  RIGHT returns `false`, which likewise `break`s back into `view_cities`. -/
def uiStep (g : Gesture) (s : SysState) : SysState :=
  match s.view, g with
  | .welcome, _ => { s with view := .menu 0 }
  | .menu i, .up => { s with view := .menu ((i + 1) % MENU_SIZE) }
  | .menu i, .down => { s with view := .menu ((i + MENU_SIZE - 1) % MENU_SIZE) }
  | .menu i, .left =>
      if i = MENU_SELECT_AREA then { s with view := .cities 0 i }
      else { s with view := .detail i }
  | .menu _, .right => s
  | .detail _, .up => s
  | .detail _, .down => s
  | .detail _, .left => s
  | .detail i, .right => { s with view := .menu i }
  | .cities c i, .up => { s with view := .cities ((c + 1) % CITY_SIZE) i }
  | .cities c i, .down => { s with view := .cities ((c + CITY_SIZE - 1) % CITY_SIZE) i }
  | .cities c i, .left => { s with view := .confirm 0 c i }
  | .cities _ i, .right => { s with view := .menu i }
  | .confirm o c i, .up => { s with view := .confirm ((o + 1) % 2) c i }
  | .confirm o c i, .down => { s with view := .confirm ((o + 2 - 1) % 2) c i }
  | .confirm o c i, .left =>
      if o = 0 then { store := { s.store with CITY := c }, view := .menu i }
      else { s with view := .cities c i }
  | .confirm _ c i, .right => { s with view := .cities c i }

/-- A sequence of gestures applied in order. -/
def run (gs : List Gesture) (s : SysState) : SysState :=
  gs.foldl (fun t g => uiStep g t) s

/-- The ingestion task handling one inbound payload: `mqtt_event_handler`
writes only the telemetry globals, never the view control state. -/
def ingestStep (d : List Char) (s : SysState) : SysState :=
  { s with store := mqtt_event_data d s.store }

/-- One iteration of the periodic publish loop of `mqtt_task`: it reads
`CITY` and `CITY_CONFIG`, publishes the formatted payload, and mutates
nothing. -/
def mqtt_task_iter (s : SysState) : SysState × String :=
  (s, mqtt_task_message s.store.CITY)

/-- The local cursor variables of every view loop stay inside their arrays. -/
def viewOk : View → Prop
  | .welcome => True
  | .menu i => i < MENU_SIZE
  | .detail i => i < MENU_SIZE
  | .cities c i => c < CITY_SIZE ∧ i < MENU_SIZE
  | .confirm o c i => o < 2 ∧ c < CITY_SIZE ∧ i < MENU_SIZE

/-- System invariant: `CITY` indexes into `CITY_CONFIG` and every live view
cursor is in range. -/
def Inv (s : SysState) : Prop :=
  s.store.CITY < CITY_SIZE ∧ viewOk s.view

/-- An oversized inbound payload: the data tag, a space, and a 280-character
field value. -/
def msgOverflow : List Char := PREFIX_DATA.data ++ [' '] ++ List.replicate 280 'a'

theorem parseFields_CITY (ts : List String) :
    ∀ (i : Nat) (st : Store), (parseFields i ts st).CITY = st.CITY := by
  induction ts with
  | nil => intro i st; rfl
  | cons t ts ih =>
    intro i st
    simp only [parseFields]
    rw [ih]
    split_ifs <;> rfl

theorem mqtt_event_data_CITY (d : List Char) (st : Store) :
    (mqtt_event_data d st).CITY = st.CITY := by
  unfold mqtt_event_data
  split
  · rfl
  · split
    · exact parseFields_CITY _ 0 st
    · rfl

theorem uiStep_Inv (g : Gesture) (s : SysState) (h : Inv s) : Inv (uiStep g s) := by
  obtain ⟨store, v⟩ := s
  obtain ⟨hc, hv⟩ := h
  cases v <;> cases g <;>
    simp_all [uiStep, Inv, viewOk, MENU_SIZE, CITY_SIZE, CITY_CONFIG, MENU_SELECT_AREA] <;>
    (try split) <;>
    (try simp_all [viewOk]) <;>
    first
      | trivial
      | omega

/-- C1 (counterexample): processing `"[DATA] topic,21.5,60,10km"` does not
store `"21.5"` into TEMPERATURE — the token at position 1 is `"topic"`, so the
claimed round-trip value is wrong. -/
theorem C1_counterexample :
    (mqtt_event_data ("[DATA] topic,21.5,60,10km".data) initialStore).TEMPERATURE ≠ "21.5"
  ∧ (mqtt_event_data ("[DATA] topic,21.5,60,10km".data) initialStore).TEMPERATURE = "topic" := by
  constructor <;> decide

/-- C1 (amended): for every prior telemetry state, processing
`"[DATA] topic,21.5,60,10km"` stores `"topic"` into the temperature field (so
a subsequent Temperature-view render shows exactly `"topic"`; `"21.5"` lands
in the humidity field), and processing a message carrying only two tokens
leaves the humidity and visibility fields equal to their prior values. -/
theorem C1_thm (st : Store) :
    (mqtt_event_data ("[DATA] topic,21.5,60,10km".data) st).TEMPERATURE = "topic"
  ∧ view_temperature_text (mqtt_event_data ("[DATA] topic,21.5,60,10km".data) st) = "topic"
  ∧ (mqtt_event_data ("[DATA] topic,21.5,60,10km".data) st).HUMIDITY = "21.5"
  ∧ (mqtt_event_data ("[DATA] 21.5".data) st).HUMIDITY = st.HUMIDITY
  ∧ (mqtt_event_data ("[DATA] 21.5".data) st).VISIBILITY = st.VISIBILITY := by
  obtain ⟨t, h, v, c⟩ := st
  exact ⟨rfl, rfl, rfl, rfl, rfl⟩

/-- C2 (counterexample): starting from the initial state, navigating to the
Confirm view and swiping LEFT with the cursor on "No" — or RIGHT — lands back
in the CitySelect view (`view_cities` loop), not in the Menu state. -/
theorem C2_counterexample :
    (run [.up, .up, .up, .up, .left, .left, .up, .left] initialState).view = View.cities 0 3
  ∧ ((run [.up, .up, .up, .up, .left, .left, .up, .left] initialState).view).isMenu = false
  ∧ (run [.up, .up, .up, .up, .left, .left, .right] initialState).view = View.cities 0 3
  ∧ ((run [.up, .up, .up, .up, .left, .left, .right] initialState).view).isMenu = false := by
  refine ⟨rfl, rfl, rfl, rfl⟩

/-- C2 (amended): from every Confirm state, a LEFT gesture with the cursor on
No, and a RIGHT gesture regardless of cursor, both discard the proposed city
(`CITY` and all other globals unchanged) and return to the CitySelect view
with its cursor preserved — not to the Menu state. -/
theorem C2_thm (s : SysState) (o c i : Nat) (hv : s.view = .confirm o c i) :
    uiStep .right s = { s with view := .cities c i }
  ∧ (o = 1 → uiStep .left s = { s with view := .cities c i }) := by
  obtain ⟨store, v⟩ := s
  have hv2 : v = View.confirm o c i := hv
  subst hv2
  refine ⟨rfl, ?_⟩
  rintro rfl
  rfl

theorem C2_witness :
    uiStep .right (⟨initialStore, .confirm 1 0 3⟩ : SysState) = ⟨initialStore, .cities 0 3⟩
  ∧ uiStep .left (⟨initialStore, .confirm 1 0 3⟩ : SysState) = ⟨initialStore, .cities 0 3⟩ :=
  ⟨(C2_thm ⟨initialStore, .confirm 1 0 3⟩ 1 0 3 rfl).1,
   (C2_thm ⟨initialStore, .confirm 1 0 3⟩ 1 0 3 rfl).2 rfl⟩

/-- C3: from the menu row for "Select area", entering CitySelect, moving the
cursor to `c`, LEFT into Confirm, then RIGHT (cancel) leaves `CITY`
unchanged; the same sequence ending with LEFT while the Confirm cursor is on
Yes sets `CITY` to `c`. -/
theorem C3_thm (s : SysState) (c : Nat) (hv : s.view = .menu 3) (hc : c < CITY_SIZE) :
    (run ([.left] ++ List.replicate c .up ++ [.left, .right]) s).store.CITY = s.store.CITY
  ∧ (run ([.left] ++ List.replicate c .up ++ [.left, .left]) s).store.CITY = c := by
  obtain ⟨store, v⟩ := s
  have hv2 : v = View.menu 3 := hv
  subst hv2
  have hc3 : c < 3 := hc
  interval_cases c <;> exact ⟨rfl, rfl⟩

theorem C3_witness :
    (run ([.left] ++ List.replicate 2 .up ++ [.left, .right])
        ⟨⟨"", "", "", 1⟩, .menu 3⟩).store.CITY = (⟨⟨"", "", "", 1⟩, .menu 3⟩ : SysState).store.CITY
  ∧ (run ([.left] ++ List.replicate 2 .up ++ [.left, .left])
        ⟨⟨"", "", "", 1⟩, .menu 3⟩).store.CITY = 2 :=
  C3_thm ⟨⟨"", "", "", 1⟩, .menu 3⟩ 2 rfl (by decide)

/-- C7: for every valid menu index, UP then DOWN in the Menu state returns to
the same state, and DOWN then UP does as well (UP is `(i+1) % MENU_SIZE`,
DOWN is `(i-1+MENU_SIZE) % MENU_SIZE`). -/
theorem C7_thm (s : SysState) (i : Nat) (hv : s.view = .menu i) (hi : i < MENU_SIZE) :
    uiStep .down (uiStep .up s) = s ∧ uiStep .up (uiStep .down s) = s := by
  obtain ⟨store, v⟩ := s
  have hv2 : v = View.menu i := hv
  subst hv2
  have hi4 : i < 4 := hi
  constructor <;> simp [uiStep, MENU_SIZE] <;> omega

theorem C7_witness :
    uiStep .down (uiStep .up ⟨initialStore, .menu 2⟩) = (⟨initialStore, .menu 2⟩ : SysState)
  ∧ uiStep .up (uiStep .down ⟨initialStore, .menu 2⟩) = (⟨initialStore, .menu 2⟩ : SysState) :=
  C7_thm ⟨initialStore, .menu 2⟩ 2 rfl (by decide)

/-- C4: the selected-city index starts at 0 and stays a valid index into the
city catalog under every operation of both tasks: every gesture processed by
any view loop, every inbound message handled by the ingestion task, and every
iteration of the periodic publisher (which mutates nothing). -/
theorem C4_thm (g : Gesture) (d : List Char) (s : SysState) (h : Inv s) :
    initialState.store.CITY = 0
  ∧ Inv initialState
  ∧ Inv (uiStep g s)
  ∧ Inv (ingestStep d s)
  ∧ Inv (mqtt_task_iter s).1
  ∧ s.store.CITY < CITY_CONFIG.length := by
  refine ⟨rfl, ⟨by decide, trivial⟩, uiStep_Inv g s h, ?_, h, h.1⟩
  obtain ⟨hc, hv⟩ := h
  exact ⟨by rw [ingestStep]; simpa [mqtt_event_data_CITY] using hc, hv⟩

theorem C4_witness :
    Inv initialState
  ∧ (initialState.store.CITY = 0
      ∧ Inv initialState
      ∧ Inv (uiStep .up initialState)
      ∧ Inv (ingestStep ("[DATA] 1,2,3".data) initialState)
      ∧ Inv (mqtt_task_iter initialState).1
      ∧ initialState.store.CITY < CITY_CONFIG.length) :=
  ⟨⟨by decide, trivial⟩, C4_thm .up ("[DATA] 1,2,3".data) initialState ⟨by decide, trivial⟩⟩

set_option maxRecDepth 20000 in
/-- C5 (code evaluated at the failing input): an inbound payload whose field
value is 280 characters long is stored in full — not truncated to the 256-byte
capacity — and the byte-writes performed while handling it (the `strncpy` of
the 287-byte payload into the 256-byte `buff`, and the `strcpy` of the
281-byte token into the 256-byte TEMPERATURE) exceed their destination
capacities. -/
theorem C5_thm :
    ((mqtt_event_data msgOverflow initialStore).TEMPERATURE).length = 280
  ∧ MAX_BUFF = 256
  ∧ msgOverflow.length = 287
  ∧ eventWriteSizes msgOverflow = [(256, 287), (256, 281)]
  ∧ writesSafe (eventWriteSizes msgOverflow) = false := by
  refine ⟨rfl, rfl, rfl, rfl, rfl⟩

/-- C6 (counterexample): the message `"X[DATA] 9,8"` has a first token that
does not start with the data discriminator, yet it is not discarded — it
overwrites TEMPERATURE and HUMIDITY (the check is substring containment, not
a prefix match). -/
theorem C6_counterexample :
    (PREFIX_DATA.data).isPrefixOf (firstToken ("X[DATA] 9,8".data)) = false
  ∧ (mqtt_event_data ("X[DATA] 9,8".data) initialStore).TEMPERATURE = "9"
  ∧ initialStore.TEMPERATURE = "" := by
  refine ⟨by decide, rfl, rfl⟩

/-- C6 (amended): every inbound message whose first space-delimited token does
not contain the data discriminator anywhere within it is discarded entirely:
all three telemetry text fields and the selected-city index are unchanged. -/
theorem C6_thm (d : List Char) (st : Store) (pre rest : List Char)
    (hs : strtokStep [' '] d = some (pre, rest))
    (hp : strstrFound pre PREFIX_DATA.data = false) :
    mqtt_event_data d st = st := by
  unfold mqtt_event_data
  rw [hs]
  simp [hp]

theorem C6_witness :
    strstrFound ("nope".data) PREFIX_DATA.data = false
  ∧ mqtt_event_data ("nope 1,2".data) ⟨"a", "b", "c", 2⟩ = ⟨"a", "b", "c", 2⟩ :=
  ⟨by decide,
   C6_thm ("nope 1,2".data) ⟨"a", "b", "c", 2⟩ ("nope".data) ("1,2".data)
     (by decide) (by decide)⟩

/-- C8: whenever the blocking gesture read observes `-1` as the first nonzero
sensor reading, the program takes the `exit_error` path: `cleanup()` releases
both the APDS9960 handle and the I2C bus handle and the process exits with
status 1; no gesture is ever returned to the view loops. -/
theorem C8_thm (rs rest : List Int) (h : rs.dropWhile (fun g => g == 0) = -1 :: rest) :
    wait_for_gesture rs = .fatal cleanup 1
  ∧ cleanup.apds9960_deleted = true
  ∧ cleanup.i2c_bus_deleted = true
  ∧ ∀ g, wait_for_gesture rs ≠ .gesture g := by
  unfold wait_for_gesture
  rw [h]
  refine ⟨by simp [exit_error], rfl, rfl, ?_⟩
  intro g
  simp [exit_error]

theorem C8_witness :
    wait_for_gesture [0, 0, -1] = .fatal cleanup 1
  ∧ cleanup.apds9960_deleted = true
  ∧ cleanup.i2c_bus_deleted = true
  ∧ ∀ g, wait_for_gesture [0, 0, -1] ≠ .gesture g :=
  C8_thm [0, 0, -1] [] (by decide)

/-- C9: each iteration of the periodic publish loop of `mqtt_task` emits the
bracketed CITY tag, a space, and exactly the city-catalog entry at the current
selected-city index, and mutates no state. -/
theorem C9_thm (s : SysState) (h : s.store.CITY < CITY_CONFIG.length) :
    (mqtt_task_iter s).2 = PREFIX_CITY ++ " " ++ CITY_CONFIG.get ⟨s.store.CITY, h⟩
  ∧ (mqtt_task_iter s).1 = s
  ∧ PREFIX_CITY = "[CITY]" := by
  refine ⟨?_, rfl, rfl⟩
  simp [mqtt_task_iter, mqtt_task_message, List.getD_eq_getElem?_getD,
    List.getElem?_eq_getElem h, List.get_eq_getElem]

theorem C9_witness :
    (mqtt_task_iter initialState).2 = "[CITY] Brno"
  ∧ (mqtt_task_iter initialState).1 = initialState :=
  ⟨by rw [(C9_thm initialState (by decide)).1]; rfl, (C9_thm initialState (by decide)).2.1⟩

/-- C10: a message with a first space-delimited token is parsed as a data
update exactly when `strstr` finds `"[DATA]"` anywhere inside that first
token — substring containment, not a prefix match — and in particular the
token `"X[DATA]Y"` is accepted although `"[DATA]"` is not a prefix of it. -/
theorem C10_thm (d : List Char) (st : Store) (pre rest : List Char)
    (hs : strtokStep [' '] d = some (pre, rest)) :
    (strstrFound pre PREFIX_DATA.data = true →
        mqtt_event_data d st = mqtt_parse_data (dataTokens pre rest) st)
  ∧ (strstrFound pre PREFIX_DATA.data = false → mqtt_event_data d st = st)
  ∧ strstrFound ("X[DATA]Y".data) PREFIX_DATA.data = true
  ∧ (PREFIX_DATA.data).isPrefixOf ("X[DATA]Y".data) = false := by
  refine ⟨?_, ?_, by decide, by decide⟩ <;>
    intro hp <;> unfold mqtt_event_data <;> rw [hs] <;> simp [hp]

theorem C10_witness :
    strtokStep [' '] ("X[DATA]Y 7".data) = some ("X[DATA]Y".data, "7".data)
  ∧ (strstrFound ("X[DATA]Y".data) PREFIX_DATA.data = true →
        mqtt_event_data ("X[DATA]Y 7".data) initialStore
          = mqtt_parse_data (dataTokens ("X[DATA]Y".data) ("7".data)) initialStore) :=
  ⟨by decide,
   (C10_thm ("X[DATA]Y 7".data) initialStore ("X[DATA]Y".data) ("7".data) (by decide)).1⟩

end Meteostation
